import Mathlib

/-!
Shallow embedding of the ytdl-api service core (src/app.py) and proofs about
the claims of its specification.  Machine state (the job table, the CAPTCHA
store, the verified-session store, the set of existing working directories)
is passed explicitly; time is a natural number of seconds; the values of the
collaborator callbacks are explicit event records.  The embedding follows the
Python source line by line; where randomness, UUIDs or the filesystem appear,
the generated value is taken as a parameter.
-/

set_option maxRecDepth 4000

/-- Character used to embed the single quotation mark appearing in a source string. -/
def apos : Char := Char.ofNat 39

/-- Boolean test that `p` is an initial segment of `s` (character lists). -/
def leadsWith : List Char → List Char → Bool
  | [], _ => true
  | _ :: _, [] => false
  | p :: ps, c :: cs => p == c && leadsWith ps cs

/-- Boolean substring test on character lists: `pat` occurs inside the second list.
Mirrors the Python `pat in hay` operator on strings. -/
def containsSub (pat : List Char) : List Char → Bool
  | [] => leadsWith pat []
  | c :: cs => leadsWith pat (c :: cs) || containsSub pat cs

/-- Python `pat in hay` on strings. -/
def containsS (hay pat : String) : Bool := containsSub pat.data hay.data

/-- Python `str.lower()` (ASCII case folding, which covers every string the
source compares). -/
def lowerStr (s : String) : String := String.mk (s.data.map Char.toLower)

/-- Python `str.strip()` (removal of leading and trailing whitespace). -/
def stripStr (s : String) : String :=
  String.mk (((s.data.dropWhile Char.isWhitespace).reverse.dropWhile Char.isWhitespace).reverse)

/-- Python truthiness of an optional string (`None` and the empty string are falsy). -/
def truthyS : Option String → Bool
  | none => false
  | some s => decide (s ≠ "")

/-- Python `s.startswith(pre)`. -/
def startsWithS (s pre : String) : Bool := leadsWith pre.data s.data

/-- Association-list lookup, the embedding of a Python `dict.get`. -/
def lookupA {α : Type} : List (String × α) → String → Option α
  | [], _ => none
  | (k1, v1) :: rest, k => if k1 = k then some v1 else lookupA rest k

/-- Association-list update, the embedding of a Python `dict[k] = v`. -/
def setA {α : Type} : List (String × α) → String → α → List (String × α)
  | [], k, v => [(k, v)]
  | (k1, v1) :: rest, k, v =>
    if k1 = k then (k, v) :: rest else (k1, v1) :: setA rest k v

/-- Association-list removal, the embedding of a Python `dict.pop(k, None)`. -/
def removeA {α : Type} (m : List (String × α)) (k : String) : List (String × α) :=
  m.filter (fun p => !(p.1 == k))

/-- Progress Record: the `DownloadProgress` class of src/app.py.  `progress`
is a rational standing for the Python float (every value the code assigns is
an exact decimal).  `createdAt` and `lastAccessed` are seconds. -/
structure DownloadProgress where
  status : String
  progress : ℚ
  filename : String
  error : String
  tempDir : String
  ffmpegAvailable : Bool
  title : String
  completed : Bool
  downloadedBytes : Nat
  totalBytes : Nat
  speed : Nat
  eta : Nat
  createdAt : Nat
  lastAccessed : Nat
deriving DecidableEq, Repr

/-- The field values `DownloadProgress.__init__` assigns (`datetime.now()` is `now`). -/
def DownloadProgress.init (now : Nat) : DownloadProgress :=
  { status := "queued", progress := 0, filename := "", error := "", tempDir := ""
    ffmpegAvailable := false, title := "", completed := false, downloadedBytes := 0
    totalBytes := 0, speed := 0, eta := 0, createdAt := now, lastAccessed := now }

/-- One entry of `captcha_store`: the stored CAPTCHA data dictionary. -/
structure CaptchaData where
  code : String
  expires : Nat
  imageData : String
deriving DecidableEq, Repr

/-- One entry of `verified_sessions`: the stored session dictionary. -/
structure SessionData where
  verifiedAt : Nat
  expires : Nat
  verifiedVideos : List String
deriving DecidableEq, Repr

abbrev CaptchaStore := List (String × CaptchaData)
abbrev SessionStore := List (String × SessionData)
abbrev JobTable := List (String × DownloadProgress)

/-- The body of `cleanup_expired_captchas`: drop every CAPTCHA and every
session whose `expires` timestamp lies strictly in the past. -/
def cleanup_expired_captchas (now : Nat) (store : CaptchaStore) (sessions : SessionStore) :
    CaptchaStore × SessionStore :=
  (store.filter (fun p => ! decide (now > p.2.expires)),
   sessions.filter (fun p => ! decide (now > p.2.expires)))

/-- The state change of the `generate_captcha` endpoint on its success path:
store `{code, expires: now+5min, image_data}` under the fresh id, then run
`cleanup_expired_captchas`.  The random 4-digit code, the UUID and the
rendered image are parameters. -/
def generate_captcha (now : Nat) (store : CaptchaStore) (sessions : SessionStore)
    (captchaCode captchaId imageData : String) : CaptchaStore × SessionStore :=
  let store1 := setA store captchaId { code := captchaCode, expires := now + 300, imageData := imageData }
  cleanup_expired_captchas now store1 sessions

/-- Response of the `verify_captcha` endpoint (only the distinctions the
source makes: HTTP 400 bodies, the 404 body, and the success body). -/
inductive VerifyOutcome where
  | badRequest (errMsg : String)
  | notFound (errMsg : String)
  | ok (sessionToken : String)
deriving DecidableEq, Repr

/-- The `verify_captcha` endpoint.  Checks presence of both fields, runs
`cleanup_expired_captchas`, looks the CAPTCHA up, pops it from the store on
every redemption attempt, compares the stripped input with the stored code by
string equality, and on success mints a session token valid for 10 minutes. -/
def verify_captcha (now : Nat) (store : CaptchaStore) (sessions : SessionStore)
    (captchaId userInput : Option String) (newToken : String) :
    VerifyOutcome × CaptchaStore × SessionStore :=
  if truthyS captchaId = false ∨ truthyS userInput = false then
    (.badRequest "CAPTCHA ID and input required", store, sessions)
  else
    let cid := captchaId.getD ""
    let inp := userInput.getD ""
    let cleaned := cleanup_expired_captchas now store sessions
    let store1 := cleaned.1
    let sessions1 := cleaned.2
    match lookupA store1 cid with
    | none => (.notFound "CAPTCHA not found or already used", store1, sessions1)
    | some cd =>
      if now > cd.expires then
        (.badRequest "CAPTCHA expired", removeA store1 cid, sessions1)
      else
        let store2 := removeA store1 cid
        if stripStr inp = cd.code then
          (.ok newToken, store2,
           setA sessions1 newToken { verifiedAt := now, expires := now + 600, verifiedVideos := [] })
        else
          (.badRequest "Incorrect CAPTCHA code", store2, sessions1)

/-- Character class `[a-zA-Z0-9_-]` of the video-id regular expressions. -/
def ytIdChar (c : Char) : Bool := c.isAlpha || c.isDigit || c == '_' || c == '-'

/-- Take the 11-character id group `([a-zA-Z0-9_-]{11})` at the current
position, failing if fewer than 11 class characters follow. -/
def takeId (cs : List Char) : Option (List Char) :=
  let candidate := cs.take 11
  if candidate.length = 11 ∧ candidate.all ytIdChar then some candidate else none

/-- Match a literal alternative followed by the id group at the current position. -/
def matchAfter (pat : List Char) (cs : List Char) : Option (List Char) :=
  if leadsWith pat cs then takeId (cs.drop pat.length) else none

/-- One position of the first pattern of `extract_video_id`:
`(?:youtube\.com/watch\?v=|youtu\.be/|youtube\.com/embed/)([a-zA-Z0-9_-]{11})`,
alternatives tried in order. -/
def tryPattern1At (cs : List Char) : Option (List Char) :=
  matchAfter "youtube.com/watch?v=".data cs <|>
  matchAfter "youtu.be/".data cs <|>
  matchAfter "youtube.com/embed/".data cs

/-- Leftmost search of the first pattern. -/
def scanP1 : List Char → Option (List Char)
  | [] => none
  | c :: cs => tryPattern1At (c :: cs) <|> scanP1 cs

/-- Lazy search for `v=` followed by the id group, the `.​*?v=([...]{11})` tail
of the second pattern. -/
def scanVeq : List Char → Option (List Char)
  | [] => none
  | c :: cs => matchAfter "v=".data (c :: cs) <|> scanVeq cs

/-- One position of the second pattern `youtube\.com/watch\?.*?v=([...]{11})`. -/
def tryPattern2At (cs : List Char) : Option (List Char) :=
  if leadsWith "youtube.com/watch?".data cs then scanVeq (cs.drop 18) else none

/-- Leftmost search of the second pattern. -/
def scanP2 : List Char → Option (List Char)
  | [] => none
  | c :: cs => tryPattern2At (c :: cs) <|> scanP2 cs

/-- The `extract_video_id` helper: the two regular expressions tried in order
over the whole URL. -/
def extract_video_id (url : String) : Option String :=
  (scanP1 url.data <|> scanP2 url.data).map String.mk

/-- The allow-list of `validate_format_string`. -/
def allowed_chars : List Char :=
  "abcdefghijklmnopqrstuvwxyzABCDEFGHIJKLMNOPQRSTUVWXYZ0123456789[]+/._-".data

/-- The `validate_format_string` helper: truthiness, character allow-list,
length bound 100, and rejection of `..` and `//`. -/
def validate_format_string (format_str : String) : Bool :=
  if format_str = "" then false
  else
    format_str.data.all (fun c => c ∈ allowed_chars) &&
    ! decide (format_str.data.length > 100) &&
    ! containsS format_str ".." &&
    ! containsS format_str "//"

/-- One status event `d` delivered to the progress hook by the extraction
collaborator.  `percentVal` is the numeric value parsed from
`d['_percent_str']` / `d['percent']` when one is present and truthy; byte
counters, speed and eta carry the optional dictionary entries. -/
structure HookEvent where
  status : Option String
  percentVal : Option ℚ
  downloadedBytes : Option Nat
  totalBytes : Option Nat
  totalBytesEstimate : Option Nat
  speed : Option Nat
  eta : Option Nat
  filename : Option String
  errorMsg : Option String
deriving DecidableEq, Repr

/-- The hook closure produced by `progress_hook_factory`, applied to the job
it is bound to.  The first line of the source hook returns untouched when the
job is absent or `job.completed` is already set. -/
def progress_hook (job : DownloadProgress) (e : HookEvent) : DownloadProgress :=
  if job.completed then job
  else if e.status = some "downloading" then
    let j1 := { job with status := "downloading" }
    let j2 :=
      match e.percentVal with
      | some p => { j1 with progress := min p (999 / 10 : ℚ) }
      | none =>
        match e.totalBytes, e.downloadedBytes with
        | some t, some dl =>
          if t ≠ 0 ∧ dl ≠ 0 then
            if 0 < t then { j1 with progress := min ((dl : ℚ) / (t : ℚ) * 100) (999 / 10 : ℚ) }
            else j1
          else j1
        | _, _ => j1
    { j2 with
      downloadedBytes := e.downloadedBytes.getD 0
      totalBytes := if e.totalBytes.getD 0 ≠ 0 then e.totalBytes.getD 0 else e.totalBytesEstimate.getD 0
      speed := e.speed.getD 0
      eta := e.eta.getD 0 }
  else if e.status = some "finished" then
    let j1 :=
      if job.completed then job
      else { job with progress := (999 / 10 : ℚ), downloadedBytes := job.totalBytes, speed := 0, eta := 0 }
    match e.filename with
    | some fn => { j1 with filename := fn }
    | none => j1
  else if e.status = some "error" then
    if job.completed then job
    else { job with status := "error", error := e.errorMsg.getD "Unknown error reported by yt-dlp" }
  else job

/-- The two bot-detection markers checked first by `handle_download_error`. -/
def bot_marker2 : String := "confirm you" ++ String.singleton apos ++ "re not a bot"

/-- Test of the bot-detection branch condition of `handle_download_error`. -/
def is_bot_msg (low : String) : Bool :=
  containsS low "sign in to confirm" || containsS low bot_marker2

/-- The `non_retryable_errors` list of `handle_download_error`. -/
def nonretryable_msgs : List String :=
  ["requested format is not available", "private video", "video unavailable",
   "this video is not available", "no video formats found", "this video is private"]

/-- Test whether any non-retryable marker occurs in the lowered message. -/
def is_nonretryable_msg (low : String) : Bool :=
  nonretryable_msgs.any (fun m => containsS low m)

/-- The `retryable_errors` list of `handle_download_error`. -/
def retryable_msgs : List String :=
  ["http error 403", "http error 429", "forbidden", "too many requests",
   "age restricted", "rate limit"]

/-- Test whether any retryable marker occurs in the lowered message. -/
def is_retryable_msg (low : String) : Bool :=
  retryable_msgs.any (fun m => containsS low m)

/-- The user-facing message of the bot-detection branch. -/
def bot_error_text : String :=
  "🤖 Bot detection triggered. Please ensure cookies.txt is uploaded and YTDL_COOKIES_PATH is configured correctly."

/-- The user-facing message chosen inside the non-retryable branch. -/
def nonretryable_error_text (low errorMsg : String) : String :=
  if containsS low "requested format is not available" then
    "The requested quality is not available for this video. Please try a lower quality."
  else if containsS low "private video" then
    "This video is private and cannot be downloaded."
  else if containsS low "video unavailable" then
    "This video is unavailable."
  else "Download failed: " ++ errorMsg

/-- The `handle_download_error` helper.  Returns the Python return value
(whether the caller should retry), the mutated job, and the number of seconds
slept inside the call (the exponential backoff `min(2 ** (retry_count + 1), 30)`
of the retryable branch; every other branch sleeps zero seconds). -/
def handle_download_error (job : DownloadProgress) (errorMsg : String)
    (retryCount maxRetries : Nat) : Bool × DownloadProgress × Nat :=
  let low := lowerStr errorMsg
  if is_bot_msg low then
    (false, { job with status := "error", error := bot_error_text, completed := true }, 0)
  else if is_nonretryable_msg low then
    (false, { job with status := "error", error := nonretryable_error_text low errorMsg, completed := true }, 0)
  else if is_retryable_msg low then
    if retryCount < maxRetries - 1 then
      (true, job, min (2 ^ (retryCount + 1)) 30)
    else
      (false, { job with
                  status := "error"
                  error := "YouTube is blocking downloads. Please ensure cookies are properly configured."
                  completed := true }, 0)
  else
    (false, { job with status := "error", error := "Download failed: " ++ errorMsg, completed := true }, 0)

/-- The backoff delay of the retryable branch at a given retry count. -/
def backoff_delay (retryCount : Nat) : Nat := min (2 ^ (retryCount + 1)) 30

/-- The retry bound `max_retries = 3` of `download_worker`. -/
def max_retries : Nat := 3

/-- The assignment `job.title = title` guarded by Python truthiness. -/
def apply_title (job : DownloadProgress) (title : Option String) : DownloadProgress :=
  match title with
  | some t => if t ≠ "" then { job with title := t } else job
  | none => job

/-- Outcome of one `ydl.extract_info` attempt inside the worker loop:
either the call returns (with the reported title and the final artifact
resolved by the fallback chain, `none` when no candidate file was found),
or it raises `yt_dlp.utils.DownloadError` with a message, or it raises an
unexpected exception with a message. -/
inductive AttemptOutcome where
  | ok (title : Option String) (resolved : Option (String × Nat))
  | err (msg : String)
  | exc (msg : String)
deriving DecidableEq, Repr

/-- The tail of a successful attempt of `download_worker`: record the title,
then either finalize on the resolved file (status `completed`, progress
`100.0`, byte counters from the real size, then the 1024-byte minimum-size
check which downgrades the status to `error` without resetting progress), or
fail with the missing-output error. -/
def finalize_attempt (job : DownloadProgress) (title : Option String)
    (resolved : Option (String × Nat)) : DownloadProgress :=
  let j0 := apply_title job title
  match resolved with
  | some (final, size) =>
    let j1 := { j0 with
                  filename := final
                  status := "completed"
                  progress := 100
                  completed := true
                  downloadedBytes := size
                  totalBytes := size }
    if size < 1024 then
      { j1 with status := "error", error := "Downloaded file is too small or corrupted" }
    else j1
  | none =>
    { j0 with status := "error", error := "Could not determine final output filename", completed := true }

/-- The `while retry_count < max_retries` loop of `download_worker`, run
against a script of attempt outcomes.  Returns the final job, the total
number of seconds slept between attempts (backoff inside
`handle_download_error`, plus the fixed 2-second sleep of the
unexpected-exception branch), and the number of attempts made. -/
def download_worker_loop : List AttemptOutcome → DownloadProgress → Nat → DownloadProgress × Nat × Nat
  | outcomes, job, retryCount =>
    if retryCount < max_retries then
      match outcomes with
      | [] => (job, 0, 0)
      | .ok title resolved :: _ => (finalize_attempt job title resolved, 0, 1)
      | .err msg :: rest =>
        let r := handle_download_error job msg retryCount max_retries
        if r.1 then
          let res := download_worker_loop rest r.2.1 (retryCount + 1)
          (res.1, r.2.2 + res.2.1, res.2.2 + 1)
        else (r.2.1, r.2.2, 1)
      | .exc msg :: rest =>
        if retryCount + 1 < max_retries then
          let res := download_worker_loop rest job (retryCount + 1)
          (res.1, 2 + res.2.1, res.2.2 + 1)
        else
          ({ job with status := "error", error := "Unexpected error: " ++ msg, completed := true }, 0, 1)
    else (job, 0, 0)

/-- The set-up block of `download_worker` before the retry loop: record the
fresh working directory and the ffmpeg probe, move to `downloading` and reset
the counters. -/
def download_worker_setup (job : DownloadProgress) (tempDir : String) (ffmpeg : Bool) :
    DownloadProgress :=
  { job with
      tempDir := tempDir
      ffmpegAvailable := ffmpeg
      status := "downloading"
      progress := 0
      downloadedBytes := 0
      totalBytes := 0
      speed := 0
      eta := 0 }

/-- The eviction condition of `cleanup_old_jobs`: absolute age above one hour,
or a finalized (completed) job not accessed for thirty minutes. -/
def job_expired (now : Nat) (job : DownloadProgress) : Bool :=
  decide (now - job.createdAt > 3600) || (job.completed && decide (now - job.lastAccessed > 1800))

/-- The `cleanup_old_jobs` sweep over the job table and the filesystem (the
list of directories that currently exist): collect the expired jobs, remove
the working directory of each expired job when it still exists (`shutil.rmtree`
guarded by `os.path.exists`, hence a no-op on an already-removed path), and
drop each expired record from the table. -/
def cleanup_old_jobs (now : Nat) (tbl : JobTable) (fs : List String) : JobTable × List String :=
  let expired := tbl.filter (fun p => job_expired now p.2)
  let fs2 := expired.foldl
    (fun acc p =>
      if p.2.tempDir ≠ "" ∧ p.2.tempDir ∈ acc then acc.filter (fun d => !(d == p.2.tempDir))
      else acc)
    fs
  (tbl.filter (fun p => ! job_expired now p.2), fs2)

/-- Response of the `download_video` endpoint (the submit path): the 400
bodies, the 403 bodies, and the accepted body carrying the job id. -/
inductive SubmitOutcome where
  | badRequest (errMsg : String)
  | forbidden (errMsg : String)
  | accepted (jobId : String) (ffmpegAvailable : Bool)
deriving DecidableEq, Repr

/-- The `allowed_extensions` list of `download_video`. -/
def allowed_extensions : List String := ["mp4", "mp3"]

/-- The auto-verify step of `download_video`: add the video id to the
verified set of the session when absent. -/
def addVid (sd : SessionData) (vid : String) : SessionData :=
  if vid ∈ sd.verifiedVideos then sd
  else { sd with verifiedVideos := sd.verifiedVideos ++ [vid] }

/-- The `download_video` endpoint.  Field presence, URL shape, video-id
extraction, session validation (an expired token is popped; a valid one has
the video id auto-verified and stays stored), format-string validation,
extension allow-list, then unconditional creation of a Progress Record and
dispatch of a worker thread.  The generated job id and the ffmpeg probe are
parameters.  The source consults no pool bound or job count anywhere on this
path; `is_format_available` only logs and is omitted as effect-free. -/
def download_video (now : Nat) (sessions : SessionStore) (tbl : JobTable)
    (url format_str : Option String) (file_ext : String) (session_token : Option String)
    (ffmpeg : Bool) (newJobId : String) : SubmitOutcome × SessionStore × JobTable :=
  if truthyS url = false ∨ truthyS format_str = false then
    (.badRequest "URL and format are required", sessions, tbl)
  else
    let u := url.getD ""
    if (startsWithS u "http://" || startsWithS u "https://") = false then
      (.badRequest "Invalid URL format", sessions, tbl)
    else
      match extract_video_id u with
      | none => (.badRequest "Invalid YouTube URL", sessions, tbl)
      | some vid =>
        if truthyS session_token = false then
          (.forbidden "CAPTCHA verification required", sessions, tbl)
        else
          let tok := session_token.getD ""
          match lookupA sessions tok with
          | none => (.forbidden "CAPTCHA verification required", sessions, tbl)
          | some sd =>
            if now > sd.expires then
              (.forbidden "CAPTCHA session expired", removeA sessions tok, tbl)
            else
              let sessions2 := setA sessions tok (addVid sd vid)
              if validate_format_string (format_str.getD "") = false then
                (.badRequest "Invalid format specification", sessions2, tbl)
              else if file_ext ∈ allowed_extensions then
                let job := { DownloadProgress.init now with ffmpegAvailable := ffmpeg }
                (.accepted newJobId ffmpeg, sessions2, setA tbl newJobId job)
              else
                (.badRequest "Invalid file extension. Allowed: mp4, mp3", sessions2, tbl)

/-- The JSON body of the `health_check` endpoint. -/
structure HealthResponse where
  status : String
  service : String
  timestamp : String
  cookiesConfigured : Bool
  cookiesPath : String
  cookiesPreview : Option String
  ffmpegAvailable : Bool
  activeJobs : Nat
  activeSessions : Nat
deriving DecidableEq, Repr

/-- Python `"".join(lines)`. -/
def joinLines (ls : List String) : String := ls.foldl (· ++ ·) ""

/-- The `health_check` endpoint.  When a cookie path is configured and the
file exists, the body carries the path and the first five lines of the
credential file verbatim in `cookies_preview`.  The file contents are a list
of lines (each line keeping its newline, as Python `readlines` yields). -/
def health_check (cookiesPath : Option String) (fileExists : Bool) (fileLines : List String)
    (ffmpeg : Bool) (timestamp : String) (activeJobs activeSessions : Nat) : HealthResponse :=
  let configured := truthyS cookiesPath && fileExists
  { status := "healthy"
    service := "YTDL API Server"
    timestamp := timestamp
    cookiesConfigured := configured
    cookiesPath := if truthyS cookiesPath then cookiesPath.getD "" else "Not set"
    cookiesPreview := if configured then some (joinLines (fileLines.take 5)) else none
    ffmpegAvailable := ffmpeg
    activeJobs := activeJobs
    activeSessions := activeSessions }

/-- Classification outcome used to describe a transient (rate-limit-class)
message: no bot-detection marker, no non-retryable marker, and at least one
retryable marker — exactly the conditions under which `handle_download_error`
reaches its backoff-and-retry branch. -/
def classified_transient (msg : String) : Bool :=
  !(is_bot_msg (lowerStr msg)) && !(is_nonretryable_msg (lowerStr msg)) &&
  is_retryable_msg (lowerStr msg)

/-- Session store holding one freshly minted, unexpired token (scenario for C1). -/
def c1_sessions : SessionStore := [("tok", { verifiedAt := 0, expires := 600, verifiedVideos := [] })]

/-- First submission with the token `tok` (scenario for C1). -/
def c1_first : SubmitOutcome × SessionStore × JobTable :=
  download_video 10 c1_sessions [] (some "https://youtu.be/abcdefghijk") (some "best")
    "mp4" (some "tok") false "job1"

/-- Second submission with the same token `tok`, on the state left by the first
(scenario for C1). -/
def c1_second : SubmitOutcome × SessionStore × JobTable :=
  download_video 20 c1_first.2.1 c1_first.2.2 (some "https://youtu.be/abcdefghijk") (some "best")
    "mp4" (some "tok") false "job2"

/-- Session store holding one unexpired token (scenario for C2). -/
def c2_sessions : SessionStore := [("tk2", { verifiedAt := 0, expires := 600, verifiedVideos := [] })]

/-- Job table already holding eight non-finalized (queued) jobs (scenario for C2). -/
def c2_tbl : JobTable :=
  [("a1", DownloadProgress.init 0), ("a2", DownloadProgress.init 0),
   ("a3", DownloadProgress.init 0), ("a4", DownloadProgress.init 0),
   ("a5", DownloadProgress.init 0), ("a6", DownloadProgress.init 0),
   ("a7", DownloadProgress.init 0), ("a8", DownloadProgress.init 0)]

/-- Submission arriving while eight jobs are active (scenario for C2). -/
def c2_submit : SubmitOutcome × SessionStore × JobTable :=
  download_video 10 c2_sessions c2_tbl (some "https://youtu.be/abcdefghijk") (some "best")
    "mp4" (some "tk2") false "jobx"

/-- CAPTCHA store holding one unexpired challenge with code 1234 (scenario for C3). -/
def c3_store : CaptchaStore := [("cid", { code := "1234", expires := 300, imageData := "img" })]

/-- First redemption attempt with the wrong code (scenario for C3). -/
def c3_first : VerifyOutcome × CaptchaStore × SessionStore :=
  verify_captcha 0 c3_store [] (some "cid") (some "0000") "t1"

/-- Second redemption attempt with the correct code, on the state left by the
first (scenario for C3). -/
def c3_second : VerifyOutcome × CaptchaStore × SessionStore :=
  verify_captcha 0 c3_first.2.1 c3_first.2.2 (some "cid") (some "1234") "t2"

/-- CAPTCHA store right after issuing a challenge with code 1234 (scenario for C4). -/
def c4_store : CaptchaStore := (generate_captcha 0 [] [] "1234" "cid4" "img4").1

/-- Worker state after set-up, on a fresh record (scenario for C5). -/
def c5_job : DownloadProgress := download_worker_setup (DownloadProgress.init 0) "/tmp/ytdl_c5" true

/-- Finalization of a job whose resolved output file is 500 bytes long
(scenario for C5: below the 1024-byte minimum). -/
def c5_result : DownloadProgress := finalize_attempt c5_job none (some ("/tmp/ytdl_c5/out.mp4", 500))

/-- A finalized Progress Record as left by a completed download (scenario for C8). -/
def c8_finalized : DownloadProgress :=
  { DownloadProgress.init 0 with
      status := "completed"
      progress := 100
      filename := "/tmp/ytdl_c8/out.mp4"
      completed := true }

/-- Classification of a late bot-detection error against the already
finalized record (scenario for C8). -/
def c8_afterwards : Bool × DownloadProgress × Nat :=
  handle_download_error c8_finalized "ERROR: Sign in to confirm your age" 0 max_retries

/-- A completed job created at time 0, last polled at time 2000 (scenario for C9). -/
def c9_job : DownloadProgress :=
  { DownloadProgress.init 0 with
      status := "completed"
      progress := 100
      completed := true
      tempDir := "/tmp/ytdl_c9"
      lastAccessed := 2000 }

/-- A completed job created at time 0 and never polled since (scenario for the
C9 witness). -/
def c9w_job : DownloadProgress :=
  { DownloadProgress.init 0 with
      status := "completed"
      progress := 100
      completed := true
      tempDir := "/tmp/ytdl_c9w" }

/-- Looking up a key right after storing it yields the stored value. -/
theorem lookup_setA {α : Type} (m : List (String × α)) (k : String) (v : α) :
    lookupA (setA m k v) k = some v := by
  induction m with
  | nil => simp [setA, lookupA]
  | cons p rest ih =>
    obtain ⟨k1, v1⟩ := p
    by_cases h : k1 = k
    · simp [setA, h, lookupA]
    · simp [setA, h, lookupA, ih]

/-- Looking up a key right after popping it yields nothing. -/
theorem lookup_removeA {α : Type} (m : List (String × α)) (k : String) :
    lookupA (removeA m k) k = none := by
  induction m with
  | nil => simp [removeA, lookupA]
  | cons p rest ih =>
    obtain ⟨k1, v1⟩ := p
    by_cases h : k1 = k
    · simpa [removeA, List.filter_cons, h] using ih
    · simpa [removeA, List.filter_cons, h, lookupA] using ih

/-- A lookup surviving a filter: when the first binding of the key satisfies
the predicate, filtering does not change what the key maps to. -/
theorem lookup_filter_some {α : Type} (p : String × α → Bool) :
    ∀ (m : List (String × α)) (k : String) (v : α),
      lookupA m k = some v → p (k, v) = true → lookupA (m.filter p) k = some v := by
  intro m
  induction m with
  | nil => intro k v h _; simp [lookupA] at h
  | cons q rest ih =>
    intro k v h hp
    obtain ⟨k1, v1⟩ := q
    by_cases hk : k1 = k
    · subst hk
      simp [lookupA] at h
      subst h
      simp [List.filter_cons, hp, lookupA]
    · simp [lookupA, hk] at h
      rw [List.filter_cons]
      cases hq : p (k1, v1) with
      | true => simpa [hq, lookupA, hk] using ih k v h hp
      | false => simpa [hq] using ih k v h hp

/-- A missing key stays missing under filtering. -/
theorem lookup_filter_none {α : Type} (p : String × α → Bool) :
    ∀ (m : List (String × α)) (k : String),
      lookupA m k = none → lookupA (m.filter p) k = none := by
  intro m
  induction m with
  | nil => intro k _; simp [lookupA]
  | cons q rest ih =>
    intro k h
    obtain ⟨k1, v1⟩ := q
    by_cases hk : k1 = k
    · simp [lookupA, hk] at h
    · simp [lookupA, hk] at h
      rw [List.filter_cons]
      cases hq : p (k1, v1) with
      | true => simpa [hq, lookupA, hk] using ih k h
      | false => simpa [hq] using ih k h

/-- `apply_title` only ever changes the `title` field. -/
theorem apply_title_shape (job : DownloadProgress) (title : Option String) :
    ∃ t, apply_title job title = { job with title := t } := by
  cases title with
  | none => exact ⟨job.title, rfl⟩
  | some t =>
    by_cases h : t ≠ ""
    · exact ⟨t, by simp [apply_title, h]⟩
    · exact ⟨job.title, by simp [apply_title, h]⟩

/-- `addVid` never changes the expiry of a session. -/
theorem addVid_expires (sd : SessionData) (vid : String) :
    (addVid sd vid).expires = sd.expires := by
  unfold addVid
  by_cases h : vid ∈ sd.verifiedVideos
  · simp [h]
  · simp [h]

/-- On a transient message below the retry cap, `handle_download_error`
requests a retry, leaves the job untouched, and sleeps the backoff delay. -/
theorem handle_transient_step (job : DownloadProgress) (msg : String) (rc : Nat)
    (ht : classified_transient msg = true) (hrc : rc < max_retries - 1) :
    handle_download_error job msg rc max_retries = (true, job, min (2 ^ (rc + 1)) 30) := by
  simp only [classified_transient, Bool.and_eq_true, Bool.not_eq_true'] at ht
  obtain ⟨⟨hb, hn⟩, hr⟩ := ht
  simp [handle_download_error, hb, hn, hr, hrc]

/-- On a message the code classifies as fatal — one carrying a bot-detection
marker or any marker of the `non_retryable_errors` list — `handle_download_error`
refuses to retry, finalizes the job as an error and sleeps zero seconds. -/
theorem handle_fatal (job : DownloadProgress) (msg : String) (rc mr : Nat)
    (h : is_bot_msg (lowerStr msg) = true ∨ is_nonretryable_msg (lowerStr msg) = true) :
    ∃ e, handle_download_error job msg rc mr =
      (false, { job with status := "error", error := e, completed := true }, 0) := by
  cases hb : is_bot_msg (lowerStr msg) with
  | true => exact ⟨bot_error_text, by simp [handle_download_error, hb]⟩
  | false =>
    have hn : is_nonretryable_msg (lowerStr msg) = true := by
      rcases h with h | h
      · rw [hb] at h; cases h
      · exact h
    exact ⟨nonretryable_error_text (lowerStr msg) msg, by simp [handle_download_error, hb, hn]⟩

/-- Characterization of a valid submission: with both fields present, a
well-formed URL, an unexpired stored session token, a valid format string and
an allowed extension, `download_video` accepts, auto-verifies the video id on
the (kept) session, and stores a fresh Progress Record — for every job table
whatsoever. -/
theorem submit_success (now : Nat) (sessions : SessionStore) (tbl : JobTable)
    (u f ext tok vid : String) (sd : SessionData) (ffm : Bool) (jid : String)
    (hu0 : u ≠ "") (hf0 : f ≠ "")
    (hu1 : (startsWithS u "http://" || startsWithS u "https://") = true)
    (hv : extract_video_id u = some vid)
    (htok : tok ≠ "")
    (hlk : lookupA sessions tok = some sd)
    (hexp : ¬ now > sd.expires)
    (hfv : validate_format_string f = true)
    (hext : ext ∈ allowed_extensions) :
    download_video now sessions tbl (some u) (some f) ext (some tok) ffm jid =
      (.accepted jid ffm, setA sessions tok (addVid sd vid),
       setA tbl jid { DownloadProgress.init now with ffmpegAvailable := ffm }) := by
  simp [download_video, truthyS, hu0, hf0, hu1, hv, htok, hlk, hexp, hfv, hext]

/-- C1, counterexample.  The claim states that the first `Submit` consumes
the session token and that a second `Submit` with the same token is rejected
with a 403.  At this concrete input the first submission succeeds, the second
submission with the same token succeeds as well (no 403), and the token is
still stored afterwards. -/
theorem claim_C1_counterexample :
    c1_first.1 = SubmitOutcome.accepted "job1" false ∧
    c1_second.1 = SubmitOutcome.accepted "job2" false ∧
    lookupA c1_second.2.1 "tok" =
      some { verifiedAt := 0, expires := 600, verifiedVideos := ["abcdefghijk"] } := by
  decide

/-- C1, amended.  A session token minted by challenge redemption is NOT
deleted when a submission consumes it: every `Submit` presenting a stored,
unexpired token is accepted, the token remains stored (only its verified-video
set grows), and a second `Submit` presenting the same token is accepted as
well.  The token disappears only via expiry (sweep or the expiry check). -/
theorem claim_C1 (now1 now2 : Nat) (sessions : SessionStore) (tbl : JobTable)
    (u f ext tok vid : String) (sd : SessionData) (ffm : Bool) (jid1 jid2 : String)
    (hu0 : u ≠ "") (hf0 : f ≠ "")
    (hu1 : (startsWithS u "http://" || startsWithS u "https://") = true)
    (hv : extract_video_id u = some vid)
    (htok : tok ≠ "")
    (hlk : lookupA sessions tok = some sd)
    (hexp1 : ¬ now1 > sd.expires) (hexp2 : ¬ now2 > sd.expires)
    (hfv : validate_format_string f = true)
    (hext : ext ∈ allowed_extensions) :
    (download_video now1 sessions tbl (some u) (some f) ext (some tok) ffm jid1).1 =
      SubmitOutcome.accepted jid1 ffm ∧
    lookupA (download_video now1 sessions tbl (some u) (some f) ext (some tok) ffm jid1).2.1 tok =
      some (addVid sd vid) ∧
    (download_video now2
        (download_video now1 sessions tbl (some u) (some f) ext (some tok) ffm jid1).2.1
        (download_video now1 sessions tbl (some u) (some f) ext (some tok) ffm jid1).2.2
        (some u) (some f) ext (some tok) ffm jid2).1 =
      SubmitOutcome.accepted jid2 ffm := by
  rw [submit_success now1 sessions tbl u f ext tok vid sd ffm jid1 hu0 hf0 hu1 hv htok hlk hexp1 hfv hext]
  dsimp only
  have hlk2 : lookupA (setA sessions tok (addVid sd vid)) tok = some (addVid sd vid) :=
    lookup_setA sessions tok (addVid sd vid)
  have hexp2a : ¬ now2 > (addVid sd vid).expires := by
    rw [addVid_expires]
    exact hexp2
  rw [submit_success now2 (setA sessions tok (addVid sd vid))
      (setA tbl jid1 { DownloadProgress.init now1 with ffmpegAvailable := ffm })
      u f ext tok vid (addVid sd vid) ffm jid2 hu0 hf0 hu1 hv htok hlk2 hexp2a hfv hext]
  exact ⟨rfl, hlk2, rfl⟩

/-- C1, witness for the amended theorem at a concrete input. -/
theorem claim_C1_witness :
    (lookupA c1_sessions "tok" = some { verifiedAt := 0, expires := 600, verifiedVideos := [] }) ∧
    (c1_first.1 = SubmitOutcome.accepted "job1" false ∧
     lookupA c1_first.2.1 "tok" =
       some (addVid { verifiedAt := 0, expires := 600, verifiedVideos := [] } "abcdefghijk") ∧
     c1_second.1 = SubmitOutcome.accepted "job2" false) :=
  ⟨by decide,
   claim_C1 10 20 c1_sessions [] "https://youtu.be/abcdefghijk" "best" "mp4" "tok" "abcdefghijk"
     { verifiedAt := 0, expires := 600, verifiedVideos := [] } false "job1" "job2"
     (by decide) (by decide) (by decide) (by decide) (by decide) (by decide)
     (by decide) (by decide) (by decide) (by decide)⟩

/-- C2, counterexample.  The claim states that a `Submit` arriving while the
worker pool already holds its maximum number of non-finalized jobs is
rejected with a pool-saturation error and creates no Progress Record.  Here
eight jobs are active and non-finalized — beyond any small single-digit
bound — yet the submission is accepted and a ninth record is created. -/
theorem claim_C2_counterexample :
    c2_tbl.length = 8 ∧
    (∀ p ∈ c2_tbl, p.2.completed = false) ∧
    c2_submit.1 = SubmitOutcome.accepted "jobx" false ∧
    lookupA c2_submit.2.2 "jobx" = some { DownloadProgress.init 10 with ffmpegAvailable := false } ∧
    c2_submit.2.2.length = 9 := by
  decide

/-- C2, amended.  `download_video` consults no pool bound and no job count at
all: a submission with valid fields and a valid session is accepted and a
Progress Record is created regardless of the contents of the job table (the
table is universally quantified), and no pool-saturation response exists on
the submit path. -/
theorem claim_C2 (now : Nat) (sessions : SessionStore) (tbl : JobTable)
    (u f ext tok vid : String) (sd : SessionData) (ffm : Bool) (jid : String)
    (hu0 : u ≠ "") (hf0 : f ≠ "")
    (hu1 : (startsWithS u "http://" || startsWithS u "https://") = true)
    (hv : extract_video_id u = some vid)
    (htok : tok ≠ "")
    (hlk : lookupA sessions tok = some sd)
    (hexp : ¬ now > sd.expires)
    (hfv : validate_format_string f = true)
    (hext : ext ∈ allowed_extensions) :
    (download_video now sessions tbl (some u) (some f) ext (some tok) ffm jid).1 =
      SubmitOutcome.accepted jid ffm ∧
    lookupA (download_video now sessions tbl (some u) (some f) ext (some tok) ffm jid).2.2 jid =
      some { DownloadProgress.init now with ffmpegAvailable := ffm } := by
  rw [submit_success now sessions tbl u f ext tok vid sd ffm jid hu0 hf0 hu1 hv htok hlk hexp hfv hext]
  exact ⟨rfl, lookup_setA tbl jid _⟩

/-- C2, witness for the amended theorem at a concrete input with eight active jobs. -/
theorem claim_C2_witness :
    (lookupA c2_sessions "tk2" = some { verifiedAt := 0, expires := 600, verifiedVideos := [] }) ∧
    (c2_submit.1 = SubmitOutcome.accepted "jobx" false ∧
     lookupA c2_submit.2.2 "jobx" = some { DownloadProgress.init 10 with ffmpegAvailable := false }) :=
  ⟨by decide,
   claim_C2 10 c2_sessions c2_tbl "https://youtu.be/abcdefghijk" "best" "mp4" "tk2" "abcdefghijk"
     { verifiedAt := 0, expires := 600, verifiedVideos := [] } false "jobx"
     (by decide) (by decide) (by decide) (by decide) (by decide) (by decide)
     (by decide) (by decide) (by decide)⟩

/-- C3, counterexample.  The claim states that an incorrect redemption below
the 3-attempt cap leaves the challenge stored so that a later correct attempt
succeeds.  At this concrete input the first (and only) incorrect attempt
evicts the challenge, and the follow-up attempt with the correct code is
rejected as not found. -/
theorem claim_C3_counterexample :
    c3_first.1 = VerifyOutcome.badRequest "Incorrect CAPTCHA code" ∧
    c3_first.2.1 = [] ∧
    c3_second.1 = VerifyOutcome.notFound "CAPTCHA not found or already used" := by
  decide

/-- C3, amended.  The store keeps no attempt counter: every redemption
attempt, correct or not, pops the challenge.  An incorrect attempt on a
stored, unexpired challenge returns the incorrect-code error, removes the
challenge, and any later attempt with any input (in particular the correct
code) is rejected with the not-found error. -/
theorem claim_C3 (now now2 : Nat) (store : CaptchaStore) (sessions : SessionStore)
    (cid inp inp2 tok tok2 : String) (cd : CaptchaData)
    (hcid : cid ≠ "") (hinp : inp ≠ "") (hinp2 : inp2 ≠ "")
    (hlk : lookupA store cid = some cd)
    (hexp : ¬ now > cd.expires)
    (hwrong : stripStr inp ≠ cd.code) :
    (verify_captcha now store sessions (some cid) (some inp) tok).1 =
      VerifyOutcome.badRequest "Incorrect CAPTCHA code" ∧
    lookupA (verify_captcha now store sessions (some cid) (some inp) tok).2.1 cid = none ∧
    (verify_captcha now2 (verify_captcha now store sessions (some cid) (some inp) tok).2.1
        (verify_captcha now store sessions (some cid) (some inp) tok).2.2
        (some cid) (some inp2) tok2).1 =
      VerifyOutcome.notFound "CAPTCHA not found or already used" := by
  have hlk1 : lookupA (store.filter (fun p => ! decide (now > p.2.expires))) cid = some cd :=
    lookup_filter_some _ store cid cd hlk (by simp [hexp])
  have hmain : verify_captcha now store sessions (some cid) (some inp) tok =
      (VerifyOutcome.badRequest "Incorrect CAPTCHA code",
       removeA (store.filter (fun p => ! decide (now > p.2.expires))) cid,
       sessions.filter (fun p => ! decide (now > p.2.expires))) := by
    simp [verify_captcha, truthyS, hcid, hinp, cleanup_expired_captchas, hlk1, hexp, hwrong]
  rw [hmain]
  dsimp only
  have hnone : lookupA (removeA (store.filter (fun p => ! decide (now > p.2.expires))) cid) cid = none :=
    lookup_removeA _ _
  refine ⟨rfl, hnone, ?_⟩
  have hnone2 : lookupA ((removeA (store.filter (fun p => ! decide (now > p.2.expires))) cid).filter
      (fun p => ! decide (now2 > p.2.expires))) cid = none :=
    lookup_filter_none _ _ _ hnone
  simp [verify_captcha, truthyS, hcid, hinp2, cleanup_expired_captchas, hnone2]

/-- C3, witness for the amended theorem at a concrete input. -/
theorem claim_C3_witness :
    (lookupA (("cw", ({ code := "1234", expires := 300, imageData := "im" } : CaptchaData)) :: []) "cw" =
       some { code := "1234", expires := 300, imageData := "im" } ∧
     stripStr "9999" ≠ "1234") ∧
    ((verify_captcha 0 (("cw", ({ code := "1234", expires := 300, imageData := "im" } : CaptchaData)) :: []) []
        (some "cw") (some "9999") "tw").1 = VerifyOutcome.badRequest "Incorrect CAPTCHA code" ∧
     lookupA (verify_captcha 0 (("cw", ({ code := "1234", expires := 300, imageData := "im" } : CaptchaData)) :: []) []
        (some "cw") (some "9999") "tw").2.1 "cw" = none ∧
     (verify_captcha 5
        (verify_captcha 0 (("cw", ({ code := "1234", expires := 300, imageData := "im" } : CaptchaData)) :: []) []
          (some "cw") (some "9999") "tw").2.1
        (verify_captcha 0 (("cw", ({ code := "1234", expires := 300, imageData := "im" } : CaptchaData)) :: []) []
          (some "cw") (some "9999") "tw").2.2
        (some "cw") (some "1234") "tw2").1 =
       VerifyOutcome.notFound "CAPTCHA not found or already used") :=
  ⟨⟨by decide, by decide⟩,
   claim_C3 0 5 (("cw", ({ code := "1234", expires := 300, imageData := "im" } : CaptchaData)) :: []) []
     "cw" "9999" "1234" "tw" "tw2" { code := "1234", expires := 300, imageData := "im" }
     (by decide) (by decide) (by decide) (by decide) (by decide) (by decide)⟩

/-- C4, counterexample.  The claim states that the store persists only a keyed
digest of the expected code and that redemption compares digests.  At this
concrete input the stored entry contains the plaintext code itself,
recoverable by a lookup, and presenting that plaintext redeems the
challenge — no digest exists anywhere in the store. -/
theorem claim_C4_counterexample :
    (lookupA c4_store "cid4").map CaptchaData.code = some "1234" ∧
    (verify_captcha 0 c4_store [] (some "cid4") (some "1234") "tk").1 = VerifyOutcome.ok "tk" := by
  decide

/-- C4, amended.  `generate_captcha` persists the plaintext code (together
with expiry and the rendered image) in the store, and `verify_captcha`
decides correctness by a plain string equality between the stripped user
input and that stored plaintext. -/
theorem claim_C4 (now : Nat) (code cid img inp tok : String)
    (hcid : cid ≠ "") (hinp : inp ≠ "") :
    lookupA (generate_captcha now [] [] code cid img).1 cid =
      some { code := code, expires := now + 300, imageData := img } ∧
    ((verify_captcha now (generate_captcha now [] [] code cid img).1 []
        (some cid) (some inp) tok).1 = VerifyOutcome.ok tok ↔ stripStr inp = code) := by
  have hno : ¬ now > now + 300 := by omega
  have hgen : (generate_captcha now [] [] code cid img).1 =
      [(cid, { code := code, expires := now + 300, imageData := img })] := by
    simp [generate_captcha, setA, cleanup_expired_captchas, hno]
  rw [hgen]
  refine ⟨by simp [lookupA], ?_⟩
  by_cases hok : stripStr inp = code
  · simp [verify_captcha, truthyS, hcid, hinp, cleanup_expired_captchas, hno, lookupA, hok]
  · simp [verify_captcha, truthyS, hcid, hinp, cleanup_expired_captchas, hno, lookupA, hok]

/-- C4, witness for the amended theorem at a concrete input (the stripped
input matters: the comparison is string equality after `strip`). -/
theorem claim_C4_witness :
    ("cw4" ≠ "" ∧ " 1234 " ≠ "") ∧
    (lookupA (generate_captcha 0 [] [] "1234" "cw4" "i").1 "cw4" =
       some { code := "1234", expires := 300, imageData := "i" } ∧
     ((verify_captcha 0 (generate_captcha 0 [] [] "1234" "cw4" "i").1 []
        (some "cw4") (some " 1234 ") "tk4").1 = VerifyOutcome.ok "tk4" ↔ stripStr " 1234 " = "1234")) :=
  ⟨⟨by decide, by decide⟩, claim_C4 0 "1234" "cw4" "i" " 1234 " "tk4" (by decide) (by decide)⟩

/-- C5, evaluation at the failing input.  A job whose resolved output file is
500 bytes long (below the 1024-byte integrity minimum) finalizes with
`status = error`, yet its `progress` stays at the `100.0` written just before
the size check, and the `completed` latch set on the success path is not
revoked — the code reports `percent = 100.0` on an errored job, contradicting
the claimed invariant that `percent = 100.0` holds exactly on completed jobs. -/
theorem claim_C5 :
    c5_result.status = "error" ∧
    c5_result.progress = 100 ∧
    c5_result.completed = true ∧
    c5_result.error = "Downloaded file is too small or corrupted" := by
  decide

/-- C6, counterexample.  The claim covers every fatal/non-retryable error of
the specification's taxonomy, which names the age-restriction wall among
them.  The code, however, lists `age restricted` among its retryable markers:
at this concrete input — an age-restriction error raised on every attempt —
the worker retries twice, sleeping the two backoff delays (6 seconds in
total) and making three attempts before finalizing as an error, contradicting
the claimed single attempt with no retry and no backoff sleep. -/
theorem claim_C6_counterexample :
    containsS (lowerStr "ERROR: This video is age restricted") "age restricted" = true ∧
    (download_worker_loop
      [.err "ERROR: This video is age restricted", .err "ERROR: This video is age restricted",
       .err "ERROR: This video is age restricted"]
      (download_worker_setup (DownloadProgress.init 0) "/tmp/ytdl_c6x" true) 0).2.1 =
      backoff_delay 0 + backoff_delay 1 ∧
    (download_worker_loop
      [.err "ERROR: This video is age restricted", .err "ERROR: This video is age restricted",
       .err "ERROR: This video is age restricted"]
      (download_worker_setup (DownloadProgress.init 0) "/tmp/ytdl_c6x" true) 0).2.2 = 3 ∧
    (download_worker_loop
      [.err "ERROR: This video is age restricted", .err "ERROR: This video is age restricted",
       .err "ERROR: This video is age restricted"]
      (download_worker_setup (DownloadProgress.init 0) "/tmp/ytdl_c6x" true) 0).1.status = "error" ∧
    (download_worker_loop
      [.err "ERROR: This video is age restricted", .err "ERROR: This video is age restricted",
       .err "ERROR: This video is age restricted"]
      (download_worker_setup (DownloadProgress.init 0) "/tmp/ytdl_c6x" true) 0).1.error =
      "YouTube is blocking downloads. Please ensure cookies are properly configured." := by
  decide

/-- C6, amended.  A collaborator attempt failing with an error the code
classifies as fatal — a bot-detection message, or any marker of its
non-retryable list (requested format not available, private video, video
unavailable, this video is not available, no video formats found, this video
is private) — finalizes the job as an error after exactly one attempt, with
zero seconds of retry sleep, whatever outcomes a retry would have seen.
Age-restriction errors are excluded from this fatal class: the code retries
them with backoff. -/
theorem claim_C6 (job : DownloadProgress) (msg : String) (rest : List AttemptOutcome)
    (h : is_bot_msg (lowerStr msg) = true ∨ is_nonretryable_msg (lowerStr msg) = true) :
    (download_worker_loop (.err msg :: rest) job 0).1.status = "error" ∧
    (download_worker_loop (.err msg :: rest) job 0).1.completed = true ∧
    (download_worker_loop (.err msg :: rest) job 0).2.1 = 0 ∧
    (download_worker_loop (.err msg :: rest) job 0).2.2 = 1 := by
  obtain ⟨e, he⟩ := handle_fatal job msg 0 max_retries h
  have h03 : 0 < max_retries := by decide
  simp [download_worker_loop, h03, he]

/-- C6, witness at a concrete private-video error message (a member of the
non-retryable list). -/
theorem claim_C6_witness :
    is_nonretryable_msg (lowerStr "ERROR: [youtube] abc: Private video") = true ∧
    ((download_worker_loop [.err "ERROR: [youtube] abc: Private video"]
        (download_worker_setup (DownloadProgress.init 0) "/tmp/ytdl_c6" true) 0).1.status = "error" ∧
     (download_worker_loop [.err "ERROR: [youtube] abc: Private video"]
        (download_worker_setup (DownloadProgress.init 0) "/tmp/ytdl_c6" true) 0).1.completed = true ∧
     (download_worker_loop [.err "ERROR: [youtube] abc: Private video"]
        (download_worker_setup (DownloadProgress.init 0) "/tmp/ytdl_c6" true) 0).2.1 = 0 ∧
     (download_worker_loop [.err "ERROR: [youtube] abc: Private video"]
        (download_worker_setup (DownloadProgress.init 0) "/tmp/ytdl_c6" true) 0).2.2 = 1) :=
  ⟨by decide,
   claim_C6 (download_worker_setup (DownloadProgress.init 0) "/tmp/ytdl_c6" true)
     "ERROR: [youtube] abc: Private video" [] (Or.inr (by decide))⟩

/-- C7.  When the first two attempts raise transient (rate-limit-class)
errors and the third succeeds with an output above the size minimum, the job
finalizes as completed with progress `100.0`, after exactly three attempts
(within the cap `max_retries`), and the total inter-attempt sleep equals the
sum of the first two capped exponential backoff delays. -/
theorem claim_C7 (job : DownloadProgress) (m1 m2 : String) (title : Option String)
    (path : String) (size : Nat)
    (h1 : classified_transient m1 = true) (h2 : classified_transient m2 = true)
    (hsize : 1024 ≤ size) :
    (download_worker_loop [.err m1, .err m2, .ok title (some (path, size))] job 0).1.status = "completed" ∧
    (download_worker_loop [.err m1, .err m2, .ok title (some (path, size))] job 0).1.progress = 100 ∧
    (download_worker_loop [.err m1, .err m2, .ok title (some (path, size))] job 0).1.completed = true ∧
    (download_worker_loop [.err m1, .err m2, .ok title (some (path, size))] job 0).2.1 =
      backoff_delay 0 + backoff_delay 1 ∧
    (download_worker_loop [.err m1, .err m2, .ok title (some (path, size))] job 0).2.2 = 3 ∧
    (download_worker_loop [.err m1, .err m2, .ok title (some (path, size))] job 0).2.2 ≤ max_retries := by
  obtain ⟨t, hta⟩ := apply_title_shape job title
  have he1 := handle_transient_step job m1 0 h1 (by decide)
  have he2 := handle_transient_step job m2 1 h2 (by decide)
  have hns : ¬ size < 1024 := Nat.not_lt.mpr hsize
  have h03 : 0 < max_retries := by decide
  have h13 : 1 < max_retries := by decide
  have h23 : 2 < max_retries := by decide
  have hle3 : 3 ≤ max_retries := by decide
  simp [download_worker_loop, he1, he2, finalize_attempt, hta, hns, backoff_delay,
    h03, h13, h23, hle3]

/-- C7, witness at a concrete rate-limit error message. -/
theorem claim_C7_witness :
    classified_transient "HTTP Error 429: Too Many Requests" = true ∧
    ((download_worker_loop
        [.err "HTTP Error 429: Too Many Requests", .err "HTTP Error 429: Too Many Requests",
         .ok (some "clip") (some ("/tmp/ytdl_c7/clip.mp4", 2048))]
        (download_worker_setup (DownloadProgress.init 0) "/tmp/ytdl_c7" true) 0).1.status = "completed" ∧
     (download_worker_loop
        [.err "HTTP Error 429: Too Many Requests", .err "HTTP Error 429: Too Many Requests",
         .ok (some "clip") (some ("/tmp/ytdl_c7/clip.mp4", 2048))]
        (download_worker_setup (DownloadProgress.init 0) "/tmp/ytdl_c7" true) 0).1.progress = 100 ∧
     (download_worker_loop
        [.err "HTTP Error 429: Too Many Requests", .err "HTTP Error 429: Too Many Requests",
         .ok (some "clip") (some ("/tmp/ytdl_c7/clip.mp4", 2048))]
        (download_worker_setup (DownloadProgress.init 0) "/tmp/ytdl_c7" true) 0).1.completed = true ∧
     (download_worker_loop
        [.err "HTTP Error 429: Too Many Requests", .err "HTTP Error 429: Too Many Requests",
         .ok (some "clip") (some ("/tmp/ytdl_c7/clip.mp4", 2048))]
        (download_worker_setup (DownloadProgress.init 0) "/tmp/ytdl_c7" true) 0).2.1 =
       backoff_delay 0 + backoff_delay 1 ∧
     (download_worker_loop
        [.err "HTTP Error 429: Too Many Requests", .err "HTTP Error 429: Too Many Requests",
         .ok (some "clip") (some ("/tmp/ytdl_c7/clip.mp4", 2048))]
        (download_worker_setup (DownloadProgress.init 0) "/tmp/ytdl_c7" true) 0).2.2 = 3 ∧
     (download_worker_loop
        [.err "HTTP Error 429: Too Many Requests", .err "HTTP Error 429: Too Many Requests",
         .ok (some "clip") (some ("/tmp/ytdl_c7/clip.mp4", 2048))]
        (download_worker_setup (DownloadProgress.init 0) "/tmp/ytdl_c7" true) 0).2.2 ≤ max_retries) :=
  ⟨by decide,
   claim_C7 (download_worker_setup (DownloadProgress.init 0) "/tmp/ytdl_c7" true)
     "HTTP Error 429: Too Many Requests" "HTTP Error 429: Too Many Requests"
     (some "clip") "/tmp/ytdl_c7/clip.mp4" 2048 (by decide) (by decide) (by decide)⟩

/-- C8, counterexample.  The claim states that the finalized latch is checked
before any write on every callback AND every classification step.
`handle_download_error` performs no latch check: invoked on an
already-finalized (completed) record with a late bot-detection error, it
overwrites `status` and `error` of the finalized record. -/
theorem claim_C8_counterexample :
    c8_finalized.completed = true ∧
    c8_finalized.status = "completed" ∧
    c8_afterwards.2.1.status = "error" ∧
    c8_afterwards.2.1.error = bot_error_text ∧
    c8_afterwards.2.1.status ≠ c8_finalized.status := by
  decide

/-- C8, amended.  Once `finalized` (the `completed` latch) is set, no event on
the collaborator callback path mutates any field: the hook returns the record
untouched for every event.  The latch check exists only at the top of the
callback hook; the error-classification step performs no such check. -/
theorem claim_C8 (job : DownloadProgress) (e : HookEvent) (h : job.completed = true) :
    progress_hook job e = job := by
  simp [progress_hook, h]

/-- C8, witness: a finalized record survives a late downloading event untouched. -/
theorem claim_C8_witness :
    c8_finalized.completed = true ∧
    progress_hook c8_finalized
      { status := some "downloading", percentVal := some 50, downloadedBytes := some 10,
        totalBytes := some 20, totalBytesEstimate := none, speed := some 1, eta := some 5,
        filename := none, errorMsg := none } = c8_finalized :=
  ⟨by decide,
   claim_C8 c8_finalized
     { status := some "downloading", percentVal := some 50, downloadedBytes := some 10,
       totalBytes := some 20, totalBytesEstimate := none, speed := some 1, eta := some 5,
       filename := none, errorMsg := none } (by decide)⟩

/-- C9, counterexample.  The claim states that a finalized record whose age
since `created_at` exceeds the grace window is removed by a sweep.  This
completed job was created 2100 seconds ago (beyond the 1800-second grace
window) but polled 100 seconds ago; the sweep keeps both the record and its
working directory, because the code measures the grace window from
`last_accessed`, not from `created_at`. -/
theorem claim_C9_counterexample :
    c9_job.completed = true ∧
    1800 < 2100 - c9_job.createdAt ∧
    cleanup_old_jobs 2100 [("j9", c9_job)] ["/tmp/ytdl_c9"] = ([("j9", c9_job)], ["/tmp/ytdl_c9"]) := by
  decide

/-- C9, amended.  A sweep removes a record and deletes its working directory
(when the directory still exists) once the job is finalized and more than
1800 seconds have passed since its last access, or unconditionally once more
than 3600 seconds have passed since `created_at` (the guard against a worker
that never finalizes); when the artifact-delivery path already removed the
directory, the deletion is a no-op, not an error. -/
theorem claim_C9 (id : String) (job : DownloadProgress) (fs : List String) (now : Nat)
    (h : (job.completed = true ∧ 1800 < now - job.lastAccessed) ∨ 3600 < now - job.createdAt) :
    (cleanup_old_jobs now [(id, job)] fs).1 = [] ∧
    (job.tempDir ≠ "" → job.tempDir ∉ (cleanup_old_jobs now [(id, job)] fs).2) ∧
    (job.tempDir ∉ fs → (cleanup_old_jobs now [(id, job)] fs).2 = fs) := by
  have he : job_expired now job = true := by
    rcases h with ⟨hc, hl⟩ | hcr
    · simp [job_expired, hc, hl]
    · simp [job_expired, hcr]
  have hfs : (cleanup_old_jobs now [(id, job)] fs).2 =
      if job.tempDir ≠ "" ∧ job.tempDir ∈ fs then fs.filter (fun d => !(d == job.tempDir))
      else fs := by
    simp [cleanup_old_jobs, he]
  refine ⟨by simp [cleanup_old_jobs, he], ?_, ?_⟩
  · intro hne
    rw [hfs]
    by_cases hm : job.tempDir ∈ fs
    · simp [hne, hm, List.mem_filter]
    · simp [hm]
  · intro hnm
    rw [hfs]
    simp [hnm]

/-- C9, witness: a completed job past the last-access grace window is swept
and its still-existing directory deleted. -/
theorem claim_C9_witness :
    (c9w_job.completed = true ∧ 1800 < 4000 - c9w_job.lastAccessed) ∧
    ((cleanup_old_jobs 4000 [("jw", c9w_job)] ["/tmp/ytdl_c9w"]).1 = [] ∧
     (c9w_job.tempDir ≠ "" → c9w_job.tempDir ∉ (cleanup_old_jobs 4000 [("jw", c9w_job)] ["/tmp/ytdl_c9w"]).2) ∧
     (c9w_job.tempDir ∉ ["/tmp/ytdl_c9w"] →
       (cleanup_old_jobs 4000 [("jw", c9w_job)] ["/tmp/ytdl_c9w"]).2 = ["/tmp/ytdl_c9w"])) :=
  ⟨⟨by decide, by decide⟩,
   claim_C9 "jw" c9w_job ["/tmp/ytdl_c9w"] 4000 (Or.inl ⟨by decide, by decide⟩)⟩

/-- C10.  With a configured, readable credential file, the health response
carries the configured path and the first five lines of the file verbatim in
`cookies_preview`; consequently two runs differing only in the first five
lines of the credential file produce observably different health responses —
the health output is not independent of the secret file contents. -/
theorem claim_C10 (path ts : String) (ffm : Bool) (nj ns : Nat) (l1 l2 : List String)
    (hp : path ≠ "")
    (hdiff : joinLines (l1.take 5) ≠ joinLines (l2.take 5)) :
    (health_check (some path) true l1 ffm ts nj ns).cookiesPreview = some (joinLines (l1.take 5)) ∧
    (health_check (some path) true l1 ffm ts nj ns).cookiesPath = path ∧
    health_check (some path) true l1 ffm ts nj ns ≠ health_check (some path) true l2 ffm ts nj ns := by
  have h1 : (health_check (some path) true l1 ffm ts nj ns).cookiesPreview =
      some (joinLines (l1.take 5)) := by
    simp [health_check, truthyS, hp]
  have h2 : (health_check (some path) true l2 ffm ts nj ns).cookiesPreview =
      some (joinLines (l2.take 5)) := by
    simp [health_check, truthyS, hp]
  refine ⟨h1, by simp [health_check, truthyS, hp], ?_⟩
  intro hcontra
  apply hdiff
  have hpr := congrArg HealthResponse.cookiesPreview hcontra
  rw [h1, h2] at hpr
  exact Option.some.inj hpr

/-- C10, witness: two one-line credential files with different contents yield
different health responses, and the preview carries the line verbatim. -/
theorem claim_C10_witness :
    joinLines (["# Netscape HTTP Cookie File\n"].take 5) ≠ joinLines (["stolen\n"].take 5) ∧
    ((health_check (some "/data/cookies.txt") true ["# Netscape HTTP Cookie File\n"] true "t" 0 0).cookiesPreview =
       some (joinLines (["# Netscape HTTP Cookie File\n"].take 5)) ∧
     (health_check (some "/data/cookies.txt") true ["# Netscape HTTP Cookie File\n"] true "t" 0 0).cookiesPath =
       "/data/cookies.txt" ∧
     health_check (some "/data/cookies.txt") true ["# Netscape HTTP Cookie File\n"] true "t" 0 0 ≠
       health_check (some "/data/cookies.txt") true ["stolen\n"] true "t" 0 0) :=
  ⟨by decide,
   claim_C10 "/data/cookies.txt" "t" true 0 0 ["# Netscape HTTP Cookie File\n"] ["stolen\n"]
     (by decide) (by decide)⟩
